import Mathlib

/-!
# Verification of the Redmine ticket proxy (src/server.js)

Shallow embedding of the Express backend in `src/server.js`.  JavaScript
values flowing through the handlers are modelled by `JsValue` (with the
JS notions of truthiness and property access), the axios transport is an
oracle parameter giving the outcome of each outbound request, and every
route handler is a pure function from its request data and the transport
oracle to the response it sends, the list of network calls it issued and
the audit records it emitted.
-/

set_option autoImplicit false

namespace RedmineProxy

/-- A JavaScript value, as far as the server's logic inspects one:
`undefined`, `null`, booleans, (integer) numbers, strings, arrays and
objects (as ordered field lists). -/
inductive JsValue where
  | undefinedJs
  | null
  | bool (b : Bool)
  | num (n : Int)
  | str (s : String)
  | arr (elems : List JsValue)
  | obj (fields : List (String × JsValue))
  deriving Repr

/-- JS truthiness: `undefined`, `null`, `false`, `0` and `""` are falsy;
every other value (including any array or object) is truthy. -/
def JsValue.truthy : JsValue → Bool
  | .undefinedJs => false
  | .null => false
  | .bool b => b
  | .num n => n != 0
  | .str s => s != ""
  | .arr _ => true
  | .obj _ => true

/-- JS property access `v.k`.  Returns `none` when the access throws a
`TypeError` (base value `null`/`undefined`); otherwise `some` of the
property value, which is `undefinedJs` when the key is missing or the base is a
primitive.  (Built-in properties of primitives, like `"x".length`, are not
modelled; the server never reads one.) -/
def JsValue.get : JsValue → String → Option JsValue
  | .undefinedJs, _ => none
  | .null, _ => none
  | .obj fields, k =>
    some (match fields.lookup k with
          | some v => v
          | none => .undefinedJs)
  | _, _ => some .undefinedJs

/-- JS template-literal stringification `${v}` (`String(v)`). -/
def JsValue.template : JsValue → String
  | .undefinedJs => "undefined"
  | .null => "null"
  | .bool b => cond b "true" "false"
  | .num n => toString n
  | .str s => s
  | .obj _ => "[object Object]"
  | .arr elems => String.intercalate "," (elems.attach.map (fun e => JsValue.template e.1))
decreasing_by
  simp_wf
  have h := List.sizeOf_lt_of_mem e.2
  omega

/-- Truthiness of an optional string (a parsed form/`env` field: absent or
present; the empty string is falsy like in JS). -/
def optTruthy : Option String → Bool
  | none => false
  | some s => s != ""

/-- JS `a || b` on values. -/
def jsOr (a b : JsValue) : JsValue :=
  if a.truthy then a else b

/-- JS `a || d` where `a` is a possibly-undefined number (used for
`result.status || 500`). -/
def jsOrNat (a : Option Nat) (d : Nat) : Nat :=
  match a with
  | some n => if n = 0 then d else n
  | none => d

/-- An optional string viewed as a JS value (`undefined` when absent). -/
def jsOfOptStr : Option String → JsValue
  | none => .undefinedJs
  | some s => .str s

/-- `redmineConfig` — the three environment-derived settings
(`REDMINE_URL`, `REDMINE_API_KEY`, `DEFAULT_PROJECT_ID`); each may be
unset. -/
structure RedmineConfig where
  url : Option String
  apiKey : Option String
  defaultProjectId : Option String

/-- The `response` part of an axios error: the upstream reply body and
HTTP status, present when the upstream answered at all. -/
structure ErrorResponse where
  data : JsValue
  status : Nat

/-- The error thrown by axios (or by the code inside a `try` block):
a message, an optional low-level code, and the upstream response when one
was received. -/
structure AxiosError where
  message : String
  code : Option String
  response : Option ErrorResponse

/-- The outcome the transport oracle assigns to one axios invocation:
either a parsed response body or a thrown `AxiosError`.  Parametric in
the body type (the JS code is untyped; typed call sites instantiate it). -/
inductive AxiosResult (α : Type) where
  | ok (data : α)
  | err (e : AxiosError)

/-- The uniform result shape produced by `callRedmineAPI`:
`{success:true, data}` or `{success:false, error, status, code}`. -/
inductive CallResult (α : Type) where
  | success (data : α)
  | failure (error : JsValue) (status : Option Nat) (code : Option String)

/-- The message of the error thrown by `callRedmineAPI` when the Redmine
credentials are not configured. -/
def credsErrorMsg : String :=
  "Las credenciales de Redmine no están configuradas. Verifica las variables de entorno REDMINE_URL y REDMINE_API_KEY."

/-- `callRedmineAPI(endpoint, method, data, headers)` from src/server.js
(URL/header assembly is absorbed into the transport oracle, which stands
for `axios(config)` on the request this call builds).  Returns the JS
result object together with a flag telling whether axios was invoked
(i.e. whether a network request was attempted).  When `REDMINE_URL` or
`REDMINE_API_KEY` is missing (absent or empty, the JS falsy test) the
function throws before calling axios and its own `catch` turns that into
a failure with the configuration message, no status and no code. -/
def callRedmineAPI {α : Type} (cfg : RedmineConfig) (transport : AxiosResult α) :
    CallResult α × Bool :=
  if !optTruthy cfg.url || !optTruthy cfg.apiKey then
    (.failure (.str credsErrorMsg) none none, false)
  else
    match transport with
    | .ok data => (.success data, true)
    | .err e =>
      (.failure
        (jsOr (match e.response with
               | some r => r.data
               | none => .undefinedJs)
          (.str e.message))
        (e.response.map (fun r => r.status))
        e.code,
       true)

/-- One uploaded multipart file as multer hands it over (the raw buffer
is opaque to the logic, so only name and mime type are modelled). -/
structure UploadFile where
  originalname : String
  mimetype : String

/-- The upload reference built from a successful `/uploads.json` call:
upstream token plus original filename and mime type. -/
structure UploadRef where
  token : JsValue
  filename : String
  content_type : String

/-- Result of `uploadFileToRedmine`: `{success:true, upload}` or
`{success:false, error}`. -/
inductive UploadResult where
  | success (upload : UploadRef)
  | failure (error : JsValue)

/-- Message of the `TypeError` thrown by
`redmineConfig.url.startsWith(...)` when `REDMINE_URL` is unset. -/
def urlTypeErrorMsg : String :=
  "Cannot read properties of undefined, reading startsWith"

/-- Message of the `TypeError` thrown by a property read on
`null`/`undefined` inside the create route or `uploadFileToRedmine`
(e.g. `response.data.upload.token` on a malformed upstream reply). -/
def tokenTypeErrorMsg : String :=
  "Cannot read properties of undefined, reading token"

/-- `uploadFileToRedmine(file)` from src/server.js.  Note that, unlike
`callRedmineAPI`, it performs no credential check: it evaluates
`redmineConfig.url.startsWith('https://')` (throwing a `TypeError`
before axios runs when the URL is unset) and then invokes axios whatever
the API key is.  The returned flag tells whether axios was invoked. -/
def uploadFileToRedmine (cfg : RedmineConfig) (transport : AxiosResult JsValue)
    (file : UploadFile) : UploadResult × Bool :=
  match cfg.url with
  | none => (.failure (.str urlTypeErrorMsg), false)
  | some _ =>
    match transport with
    | .ok data =>
      match data.get "upload" with
      | none => (.failure (.str tokenTypeErrorMsg), true)
      | some up =>
        match up.get "token" with
        | none => (.failure (.str tokenTypeErrorMsg), true)
        | some tok => (.success ⟨tok, file.originalname, file.mimetype⟩, true)
    | .err e =>
      (.failure
        (jsOr (match e.response with
               | some r => r.data
               | none => .undefinedJs)
          (.str e.message)),
       true)

/-- What a GET route sends back: HTTP status, response body, and whether
the single `callRedmineAPI` it performs invoked axios. -/
structure RouteResult where
  status : Nat
  body : JsValue
  networkAttempted : Bool
  deriving Repr

/-- `GET /api/trackers`. -/
def trackersHandler (cfg : RedmineConfig) (transport : AxiosResult JsValue) : RouteResult :=
  match callRedmineAPI cfg transport with
  | (.success data, attempted) => ⟨200, data, attempted⟩
  | (.failure err status _, attempted) =>
    ⟨jsOrNat status 500,
     .obj [("error", .str "Error al obtener trackers"), ("details", err)],
     attempted⟩

/-- `GET /api/priorities`. -/
def prioritiesHandler (cfg : RedmineConfig) (transport : AxiosResult JsValue) : RouteResult :=
  match callRedmineAPI cfg transport with
  | (.success data, attempted) => ⟨200, data, attempted⟩
  | (.failure err status _, attempted) =>
    ⟨jsOrNat status 500,
     .obj [("error", .str "Error al obtener prioridades"), ("details", err)],
     attempted⟩

/-- `GET /api/tickets/:id` (the id only selects the endpoint, which the
transport oracle absorbs). -/
def getTicketHandler (cfg : RedmineConfig) (_id : String)
    (transport : AxiosResult JsValue) : RouteResult :=
  match callRedmineAPI cfg transport with
  | (.success data, attempted) => ⟨200, data, attempted⟩
  | (.failure err status _, attempted) =>
    ⟨jsOrNat status 500,
     .obj [("error", .str "Error al obtener ticket"), ("details", err)],
     attempted⟩

/-- The `parent` reference of an upstream project (`project.parent` with
its `id`). -/
structure ProjectParent where
  id : Int
  deriving Repr, DecidableEq

/-- An upstream project as the shaping logic inspects it: its `id`, its
optional `parent` reference, and its remaining payload (name etc.),
carried along untouched by the object spreads. -/
structure Project where
  id : Int
  parent : Option ProjectParent
  name : String
  deriving Repr, DecidableEq

/-- `{...project, parent_id: parentId}` — a subproject as stored in a
group of `subprojectsByParent`. -/
structure SubProject where
  project : Project
  parent_id : Int
  deriving Repr, DecidableEq

/-- `{...project, has_subprojects: ...}` — a top-level project as stored
in `mainProjects`. -/
structure MainProject where
  project : Project
  has_subprojects : Bool
  deriving Repr, DecidableEq

/-- The `subprojectsByParent` map: a JS `Map` keyed by parent id,
modelled as an association list in key-insertion order (which is also
how `Object.fromEntries` serializes it). -/
def SubMap : Type := List (Int × List SubProject)

/-- `map.get(k)` (`none` when the key is absent). -/
def SubMap.find? : SubMap → Int → Option (List SubProject)
  | [], _ => none
  | (k, g) :: rest, key => if k = key then some g else SubMap.find? rest key

/-- `map.has(k)`. -/
def SubMap.hasKey (m : SubMap) (k : Int) : Bool :=
  (m.find? k).isSome

/-- `if (!map.has(k)) map.set(k, []); map.get(k).push(p)` — append `p`
to the group of `k`, creating the group (at the end, preserving key
insertion order) on first encounter. -/
def SubMap.push : SubMap → Int → SubProject → SubMap
  | [], k, p => [(k, [p])]
  | (k', g) :: rest, k, p =>
    if k' = k then (k', g ++ [p]) :: rest else (k', g) :: SubMap.push rest k p

/-- One step of the `projects.forEach(...)` loop of `GET /api/projects`:
a project with a `parent` is pushed into its parent's subproject group
(annotated with `parent_id`); a parentless one is appended to
`mainProjects` with `has_subprojects` initially `false`. -/
def shapeStep (acc : List MainProject × SubMap) (project : Project) :
    List MainProject × SubMap :=
  match project.parent with
  | some parent => (acc.1, acc.2.push parent.id ⟨project, parent.id⟩)
  | none => (acc.1 ++ [⟨project, false⟩], acc.2)

/-- The project-hierarchy shaping of `GET /api/projects`: the forEach
partition pass followed by the second pass that sets each top-level
project's `has_subprojects` to whether its id is a key of the map. -/
def shapeProjects (projects : List Project) : List MainProject × SubMap :=
  let fstPass := projects.foldl shapeStep ([], [])
  (fstPass.1.map (fun m => ⟨m.project, fstPass.2.hasKey m.project.id⟩), fstPass.2)

/-- The upstream body of `GET /projects.json?include=descendants` as the
route reads it: `result.data.projects` may be absent. -/
structure ProjectsData where
  projects : Option (List Project)

/-- The body `GET /api/projects` responds with: the shaped hierarchy on
success, or the uniform error shape. -/
inductive ProjectsBody where
  | shaped (main_projects : List MainProject) (subprojects : SubMap) (total_count : Nat)
  | error (error : String) (details : JsValue)

/-- Result of the `GET /api/projects` route. -/
structure ProjectsRouteResult where
  status : Nat
  body : ProjectsBody
  networkAttempted : Bool

/-- `GET /api/projects`: fetch the flat project list upstream, default a
missing `projects` field to `[]`, shape the hierarchy and answer with
`{main_projects, subprojects, total_count}`. -/
def projectsHandler (cfg : RedmineConfig) (transport : AxiosResult ProjectsData) :
    ProjectsRouteResult :=
  match callRedmineAPI cfg transport with
  | (.success data, attempted) =>
    let projects := data.projects.getD []
    let shaped := shapeProjects projects
    ⟨200, .shaped shaped.1 shaped.2 projects.length, attempted⟩
  | (.failure err status _, attempted) =>
    ⟨jsOrNat status 500, .error "Error al obtener proyectos" err, attempted⟩

/-- The parsed multipart fields of `POST /api/tickets` (`req.body`);
every field may be absent, and `user_info` is the raw serialized
identity blob. -/
structure TicketBody where
  project_id : Option String
  subject : Option String
  description : Option String
  tracker_id : Option String
  priority_id : Option String
  modulo : Option String
  numero_tramite : Option String
  identificador_operacion : Option String
  user_info : Option String

/-- The `issue` object sent to `POST /issues.json` (`issueData.issue`):
form fields stay strings, defaulted ids become the literal numbers, and
`uploads` is present only when some attachment was uploaded. -/
structure IssuePayload where
  project_id : JsValue
  subject : JsValue
  description : String
  tracker_id : JsValue
  priority_id : JsValue
  uploads : Option (List UploadRef)

/-- One outbound request the create-ticket route issued: the upload of
the attachment at a given index, or the issue-create call with the
payload it carried. -/
inductive NetworkCall where
  | upload (index : Nat)
  | create (payload : IssuePayload)

/-- An audit record printed by the create-ticket route: the success
record (`CREATE_TICKET`) with the user object, the created ticket data
and the attachment count, or the failure record (`CREATE_TICKET_FAILED`)
emitted from the route's `catch` block. -/
inductive AuditEvent where
  | createTicket (user : JsValue) (redmine_id : JsValue) (project_id : Option String)
      (subject : Option String) (tracker_id : Option String) (priority_id : Option String)
      (attachments : Nat)
  | createTicketFailed (user : JsValue) (errorMessage : String)

/-- The HTTP answer of the create-ticket route. -/
structure HandlerResponse where
  status : Nat
  body : JsValue

/-- Everything observable about one run of the create-ticket route. -/
structure TicketOutcome where
  response : HandlerResponse
  calls : List NetworkCall
  audits : List AuditEvent

/-- `user_info ? JSON.parse(user_info) : null`, with the `catch` that
leaves `userInfo` at `null` when parsing throws.  `jsonParse` is the
oracle for `JSON.parse` (`none` = throws). -/
def parseUserInfoField (jsonParse : String → Option JsValue) (user_info : Option String) :
    JsValue :=
  if optTruthy user_info then (jsonParse (user_info.getD "")).getD .null else .null

/-- The description assembly of the create-ticket route: the request
description, then the requester-information section (username line only
when `userInfo.username` is truthy), then — only when at least one of
`modulo`, `numero_tramite`, `identificador_operacion` is truthy — the
additional-information section with one line per present field in
source order.  Property reads on `userInfo` go through `JsValue.get`, so
the result is `none` exactly when such a read throws (which the route's
guard makes impossible, see `JsValue.get_isSome_of_truthy`). -/
def buildFullDescription (description : String) (userInfo : JsValue)
    (modulo numero_tramite identificador_operacion : Option String) : Option String := do
  let name ← userInfo.get "name"
  let email ← userInfo.get "email"
  let username ← userInfo.get "username"
  let d0 := description ++ "\n\n---\n**Información del Solicitante:**\n"
      ++ "- **Nombre:** " ++ name.template ++ "\n"
      ++ "- **Email:** " ++ email.template ++ "\n"
  let d1 := if username.truthy then d0 ++ "- **Usuario Keycloak:** " ++ username.template ++ "\n" else d0
  let d2 :=
    if optTruthy modulo || optTruthy numero_tramite || optTruthy identificador_operacion then
      let a0 := d1 ++ "\n**Información Adicional:**\n"
      let a1 := if optTruthy modulo then a0 ++ "- **Módulo:** " ++ modulo.getD "" ++ "\n" else a0
      let a2 := if optTruthy numero_tramite then
          a1 ++ "- **Número de trámite:** " ++ numero_tramite.getD "" ++ "\n"
        else a1
      if optTruthy identificador_operacion then
        a2 ++ "- **Identificador de operación:** " ++ identificador_operacion.getD "" ++ "\n"
      else a2
    else d1
  pure d2

/-- The `issueData.issue` object built by the create-ticket route:
`project_id` defaults (by JS `||`) to the configured default project,
`tracker_id` to the number `1`, `priority_id` to the number `2`, and
`uploads` is attached only when at least one upload succeeded. -/
def buildIssueData (cfg : RedmineConfig) (body : TicketBody) (fullDescription : String)
    (uploads : List UploadRef) : IssuePayload where
  project_id := jsOr (jsOfOptStr body.project_id) (jsOfOptStr cfg.defaultProjectId)
  subject := jsOfOptStr body.subject
  description := fullDescription
  tracker_id := jsOr (jsOfOptStr body.tracker_id) (.num 1)
  priority_id := jsOr (jsOfOptStr body.priority_id) (.num 2)
  uploads := if uploads.length > 0 then some uploads else none

/-- The `for (const file of req.files)` upload loop, from the file at
index `i` on: successful uploads are collected in order, failures are
logged and dropped, and every axios invocation is recorded. -/
def runUploadsAux (cfg : RedmineConfig) (uploadTransport : Nat → AxiosResult JsValue) :
    List UploadFile → Nat → List UploadRef × List NetworkCall
  | [], _ => ([], [])
  | file :: rest, i =>
    let r := uploadFileToRedmine cfg (uploadTransport i) file
    let tail := runUploadsAux cfg uploadTransport rest (i + 1)
    ((match r.1 with
      | .success u => u :: tail.1
      | .failure _ => tail.1),
     (if r.2 then [NetworkCall.upload i] else []) ++ tail.2)

/-- The whole upload loop of the create-ticket route. -/
def runUploads (cfg : RedmineConfig) (uploadTransport : Nat → AxiosResult JsValue)
    (files : List UploadFile) : List UploadRef × List NetworkCall :=
  runUploadsAux cfg uploadTransport files 0

/-- The `user` object of the success audit record. -/
def auditUserSuccess (userInfo : JsValue) : JsValue :=
  .obj [("keycloak_id", (userInfo.get "sub").getD .undefinedJs),
        ("email", (userInfo.get "email").getD .undefinedJs),
        ("username", (userInfo.get "username").getD .undefinedJs),
        ("name", (userInfo.get "name").getD .undefinedJs)]

/-- The `user` object of the failure audit record (no `keycloak_id`). -/
def auditUserFailure (userInfo : JsValue) : JsValue :=
  .obj [("email", (userInfo.get "email").getD .undefinedJs),
        ("username", (userInfo.get "username").getD .undefinedJs),
        ("name", (userInfo.get "name").getD .undefinedJs)]

/-- The `500 Error interno del servidor` body sent from the route's
`catch` block. -/
def internalErrorBody (message : String) : JsValue :=
  .obj [("error", .str "Error interno del servidor"), ("details", .str message)]

/-- `POST /api/tickets` from src/server.js.  `jsonParse` is the
`JSON.parse` oracle, `uploadTransport i` the axios outcome for the
upload of the file at index `i`, `createTransport` the axios outcome for
`POST /issues.json`.  The property reads on `userInfo` and on the create
response are written with `JsValue.get`; a read that throws in JS
(`none`) lands in the route's `catch` block, which answers 500 and emits
the failure audit record (`userInfo` is necessarily truthy there). -/
def createTicketHandler (cfg : RedmineConfig) (jsonParse : String → Option JsValue)
    (uploadTransport : Nat → AxiosResult JsValue) (createTransport : AxiosResult JsValue)
    (body : TicketBody) (files : List UploadFile) : TicketOutcome :=
  if !optTruthy body.subject || !optTruthy body.description then
    { response := ⟨400, .obj [("error", .str "Campos requeridos faltantes"),
        ("details", .str "subject y description son obligatorios")]⟩,
      calls := [], audits := [] }
  else
    let userInfo := parseUserInfoField jsonParse body.user_info
    if !userInfo.truthy || !(((userInfo.get "email").getD .undefinedJs).truthy) then
      { response := ⟨400, .obj [("error", .str "Información de usuario no disponible"),
          ("details", .str "Se requiere información del usuario autenticado para crear el ticket")]⟩,
        calls := [], audits := [] }
    else
      let uploadsRun := runUploads cfg uploadTransport files
      let uploads := uploadsRun.1
      match buildFullDescription (body.description.getD "") userInfo
          body.modulo body.numero_tramite body.identificador_operacion with
      | none =>
        { response := ⟨500, internalErrorBody tokenTypeErrorMsg⟩,
          calls := uploadsRun.2,
          audits := [.createTicketFailed (auditUserFailure userInfo) tokenTypeErrorMsg] }
      | some fullDescription =>
        let issueData := buildIssueData cfg body fullDescription uploads
        match callRedmineAPI cfg createTransport with
        | (result, attempted) =>
          let calls := uploadsRun.2 ++ (if attempted then [NetworkCall.create issueData] else [])
          match result with
          | .success data =>
            (match data.get "issue" with
             | none =>
               { response := ⟨500, internalErrorBody tokenTypeErrorMsg⟩,
                 calls := calls,
                 audits := [.createTicketFailed (auditUserFailure userInfo) tokenTypeErrorMsg] }
             | some issue =>
               match issue.get "id" with
               | none =>
                 { response := ⟨500, internalErrorBody tokenTypeErrorMsg⟩,
                   calls := calls,
                   audits := [.createTicketFailed (auditUserFailure userInfo) tokenTypeErrorMsg] }
               | some ticketId =>
                 { response := ⟨201, .obj [("message", .str "Ticket creado exitosamente"),
                     ("ticket", issue),
                     ("attachmentsUploaded", .num uploads.length)]⟩,
                   calls := calls,
                   audits := [.createTicket (auditUserSuccess userInfo) ticketId
                     body.project_id body.subject body.tracker_id body.priority_id
                     uploads.length] })
          | .failure err status _ =>
            { response := ⟨jsOrNat status 500,
                .obj [("error", .str "Error al crear ticket"), ("details", err)]⟩,
              calls := calls,
              audits := [] }

/-! ## Helper lemmas -/

/-- A truthy JS value is neither `null` nor `undefined`, so property
access on it never throws. -/
theorem JsValue.get_isSome_of_truthy (v : JsValue) (k : String) (h : v.truthy = true) :
    ∃ r, v.get k = some r := by
  cases v <;> simp_all [JsValue.truthy, JsValue.get]

/-- When `userInfo` is truthy, the description assembly cannot throw. -/
theorem buildFullDescription_isSome (d : String) (ui : JsValue) (m n i : Option String)
    (h : ui.truthy = true) :
    ∃ fd, buildFullDescription d ui m n i = some fd := by
  obtain ⟨nm, hnm⟩ := ui.get_isSome_of_truthy "name" h
  obtain ⟨em, hem⟩ := ui.get_isSome_of_truthy "email" h
  obtain ⟨un, hun⟩ := ui.get_isSome_of_truthy "username" h
  unfold buildFullDescription
  rw [hnm, hem, hun]
  exact ⟨_, rfl⟩

/-- The truthiness of an optional string survives the `jsOfOptStr` view. -/
@[simp] theorem truthy_jsOfOptStr (o : Option String) :
    (jsOfOptStr o).truthy = optTruthy o := by
  cases o <;> rfl

theorem SubMap.find?_push_self (m : SubMap) (k : Int) (p : SubProject) :
    (m.push k p).find? k = some (((m.find? k).getD []) ++ [p]) := by
  induction m with
  | nil => simp [SubMap.push, SubMap.find?]
  | cons hd tl ih =>
    obtain ⟨k', g⟩ := hd
    by_cases hk : k' = k
    · subst hk
      simp [SubMap.push, SubMap.find?]
    · simp [SubMap.push, SubMap.find?, hk, ih]

theorem SubMap.find?_push_ne (m : SubMap) (k q : Int) (p : SubProject) (h : q ≠ k) :
    (m.push k p).find? q = m.find? q := by
  induction m with
  | nil => simp [SubMap.push, SubMap.find?, Ne.symm h]
  | cons hd tl ih =>
    obtain ⟨k', g⟩ := hd
    by_cases hk : k' = k
    · subst hk
      simp [SubMap.push, SubMap.find?, Ne.symm h]
    · simp [SubMap.push, SubMap.find?, hk, ih]

theorem SubMap.keys_push (m : SubMap) (k : Int) (p : SubProject) :
    (m.push k p).map Prod.fst =
      if (m.find? k).isSome then m.map Prod.fst else m.map Prod.fst ++ [k] := by
  induction m with
  | nil => simp [SubMap.push, SubMap.find?]
  | cons hd tl ih =>
    obtain ⟨k', g⟩ := hd
    by_cases hk : k' = k
    · subst hk
      simp [SubMap.push, SubMap.find?]
    · simp only [SubMap.push, SubMap.find?, hk, if_false, List.map_cons, ih]
      split <;> simp

theorem SubMap.find?_isSome_iff_mem (m : SubMap) (k : Int) :
    (m.find? k).isSome = true ↔ k ∈ m.map Prod.fst := by
  induction m with
  | nil => simp [SubMap.find?]
  | cons hd tl ih =>
    obtain ⟨k', g⟩ := hd
    simp only [SubMap.find?, List.map_cons, List.mem_cons]
    by_cases hk : k' = k
    · subst hk
      simp
    · rw [if_neg hk, ih]
      constructor
      · exact fun hm => Or.inr hm
      · rintro (hm | hm)
        · exact absurd hm.symm hk
        · exact hm

theorem SubMap.nodup_keys_push (m : SubMap) (k : Int) (p : SubProject)
    (h : (m.map Prod.fst).Nodup) : ((m.push k p).map Prod.fst).Nodup := by
  rw [SubMap.keys_push]
  split
  · exact h
  · next hfind =>
    have hk : k ∉ m.map Prod.fst := by
      rw [← SubMap.find?_isSome_iff_mem]
      simp_all
    simp [List.nodup_append, h, hk]

/-- Spec-side characterization: the subprojects of parent `k`, i.e. the
input projects whose `parent` has id `k`, in input order, annotated with
`parent_id` copied from the parent reference. -/
def specSubprojectsOf (projects : List Project) (k : Int) : List SubProject :=
  projects.filterMap (fun p =>
    match p.parent with
    | some par => if par.id = k then some ⟨p, par.id⟩ else none
    | none => none)

theorem shape_foldl_fst (ps : List Project) : ∀ acc : List MainProject × SubMap,
    (ps.foldl shapeStep acc).1 =
      acc.1 ++ (ps.filter (fun p => p.parent.isNone)).map (fun p => ⟨p, false⟩) := by
  induction ps with
  | nil => intro acc; simp
  | cons p ps ih =>
    intro acc
    rw [List.foldl_cons, ih]
    cases hp : p.parent with
    | none => simp [shapeStep, hp, List.filter_cons]
    | some par => simp [shapeStep, hp, List.filter_cons]

theorem shape_foldl_find? (ps : List Project) : ∀ (acc : List MainProject × SubMap) (k : Int),
    (((ps.foldl shapeStep acc).2.find? k).getD []) =
      ((acc.2.find? k).getD []) ++ specSubprojectsOf ps k := by
  induction ps with
  | nil => intro acc k; simp [specSubprojectsOf]
  | cons p ps ih =>
    intro acc k
    rw [List.foldl_cons, ih]
    cases hp : p.parent with
    | none => simp [shapeStep, hp, specSubprojectsOf, List.filterMap_cons]
    | some par =>
      by_cases hk : par.id = k
      · subst hk
        simp [shapeStep, hp, specSubprojectsOf, List.filterMap_cons,
          SubMap.find?_push_self]
      · simp [shapeStep, hp, specSubprojectsOf, List.filterMap_cons, hk,
          SubMap.find?_push_ne _ _ _ _ (fun hh => hk hh.symm)]

theorem shape_foldl_nodup_keys (ps : List Project) :
    ∀ acc : List MainProject × SubMap, (acc.2.map Prod.fst).Nodup →
      ((ps.foldl shapeStep acc).2.map Prod.fst).Nodup := by
  induction ps with
  | nil => intro acc h; simpa using h
  | cons p ps ih =>
    intro acc h
    rw [List.foldl_cons]
    apply ih
    cases hp : p.parent with
    | none => simpa [shapeStep, hp] using h
    | some par =>
      simp only [shapeStep, hp]
      exact SubMap.nodup_keys_push _ _ _ h

/-- Spec-side characterization: the upload references of the attachments
whose upload succeeds, in the original attachment order. -/
def specSuccessfulUploads (cfg : RedmineConfig) (uploadTransport : Nat → AxiosResult JsValue)
    (files : List UploadFile) : List UploadRef :=
  files.enum.filterMap (fun p =>
    match (uploadFileToRedmine cfg (uploadTransport p.1) p.2).1 with
    | .success u => some u
    | .failure _ => none)

theorem runUploadsAux_fst (cfg : RedmineConfig) (ut : Nat → AxiosResult JsValue) :
    ∀ (files : List UploadFile) (i : Nat),
      (runUploadsAux cfg ut files i).1 =
        (files.enumFrom i).filterMap (fun p =>
          match (uploadFileToRedmine cfg (ut p.1) p.2).1 with
          | .success u => some u
          | .failure _ => none) := by
  intro files
  induction files with
  | nil => intro i; simp [runUploadsAux]
  | cons f fs ih =>
    intro i
    simp only [runUploadsAux, List.enumFrom, List.filterMap_cons, ih (i + 1)]
    cases h : (uploadFileToRedmine cfg (ut i) f).1 <;> simp [h]

/-- The successes collected by the upload loop are exactly the
successful uploads in input order. -/
theorem runUploads_fst (cfg : RedmineConfig) (ut : Nat → AxiosResult JsValue)
    (files : List UploadFile) :
    (runUploads cfg ut files).1 = specSuccessfulUploads cfg ut files := by
  rw [runUploads, runUploadsAux_fst]
  rfl

/-- The upload loop only issues upload requests, never a create. -/
theorem runUploadsAux_calls_are_uploads (cfg : RedmineConfig) (ut : Nat → AxiosResult JsValue) :
    ∀ (files : List UploadFile) (i : Nat) (c : NetworkCall),
      c ∈ (runUploadsAux cfg ut files i).2 → ∃ j, c = .upload j := by
  intro files
  induction files with
  | nil => intro i c hc; simp [runUploadsAux] at hc
  | cons f fs ih =>
    intro i c hc
    simp only [runUploadsAux, List.mem_append] at hc
    rcases hc with hc | hc
    · rcases hh : (uploadFileToRedmine cfg (ut i) f).2 with _ | _
      · simp [hh] at hc
      · simp only [hh, if_true, List.mem_singleton] at hc
        exact ⟨i, hc⟩
    · exact ih (i + 1) c hc

/-- Path lemma: when the credentials are configured, the body passes
validation, the parsed identity is truthy with a truthy email, and the
create call succeeds with a well-formed issue, the route answers 201,
its calls are the upload calls followed by the create call with the
built payload, and it emits the success audit record. -/
theorem createTicketHandler_success (cfg : RedmineConfig) (jsonParse : String → Option JsValue)
    (ut : Nat → AxiosResult JsValue) (ct : AxiosResult JsValue)
    (body : TicketBody) (files : List UploadFile) (d issue tid : JsValue)
    (hu : optTruthy cfg.url = true) (hk : optTruthy cfg.apiKey = true)
    (hs : optTruthy body.subject = true) (hd : optTruthy body.description = true)
    (hut : (parseUserInfoField jsonParse body.user_info).truthy = true)
    (he : (((parseUserInfoField jsonParse body.user_info).get "email").getD .undefinedJs).truthy = true)
    (hct : ct = .ok d) (hiss : d.get "issue" = some issue) (hid : issue.get "id" = some tid) :
    ∃ fd,
      buildFullDescription (body.description.getD "") (parseUserInfoField jsonParse body.user_info)
        body.modulo body.numero_tramite body.identificador_operacion = some fd ∧
      createTicketHandler cfg jsonParse ut ct body files =
        { response := ⟨201, .obj [("message", .str "Ticket creado exitosamente"),
            ("ticket", issue),
            ("attachmentsUploaded", .num (runUploads cfg ut files).1.length)]⟩,
          calls := (runUploads cfg ut files).2 ++
            [.create (buildIssueData cfg body fd (runUploads cfg ut files).1)],
          audits := [.createTicket (auditUserSuccess (parseUserInfoField jsonParse body.user_info))
            tid body.project_id body.subject body.tracker_id body.priority_id
            (runUploads cfg ut files).1.length] } := by
  obtain ⟨fd, hfd⟩ := buildFullDescription_isSome (body.description.getD "")
    (parseUserInfoField jsonParse body.user_info) body.modulo body.numero_tramite
    body.identificador_operacion hut
  refine ⟨fd, hfd, ?_⟩
  subst hct
  unfold createTicketHandler callRedmineAPI
  simp [hs, hd, hut, he, hfd, hu, hk, hiss, hid]

/-- Path lemma: same premises but the create call throws an axios error.
The route propagates the derived status and error payload and emits no
audit record at all. -/
theorem createTicketHandler_failure (cfg : RedmineConfig) (jsonParse : String → Option JsValue)
    (ut : Nat → AxiosResult JsValue) (ct : AxiosResult JsValue)
    (body : TicketBody) (files : List UploadFile) (e : AxiosError)
    (hu : optTruthy cfg.url = true) (hk : optTruthy cfg.apiKey = true)
    (hs : optTruthy body.subject = true) (hd : optTruthy body.description = true)
    (hut : (parseUserInfoField jsonParse body.user_info).truthy = true)
    (he : (((parseUserInfoField jsonParse body.user_info).get "email").getD .undefinedJs).truthy = true)
    (hct : ct = .err e) :
    ∃ fd,
      buildFullDescription (body.description.getD "") (parseUserInfoField jsonParse body.user_info)
        body.modulo body.numero_tramite body.identificador_operacion = some fd ∧
      createTicketHandler cfg jsonParse ut ct body files =
        { response := ⟨jsOrNat (e.response.map (fun r => r.status)) 500,
            .obj [("error", .str "Error al crear ticket"),
              ("details", jsOr (match e.response with
                                | some r => r.data
                                | none => .undefinedJs) (.str e.message))]⟩,
          calls := (runUploads cfg ut files).2 ++
            [.create (buildIssueData cfg body fd (runUploads cfg ut files).1)],
          audits := [] } := by
  obtain ⟨fd, hfd⟩ := buildFullDescription_isSome (body.description.getD "")
    (parseUserInfoField jsonParse body.user_info) body.modulo body.numero_tramite
    body.identificador_operacion hut
  refine ⟨fd, hfd, ?_⟩
  subst hct
  unfold createTicketHandler callRedmineAPI
  simp [hs, hd, hut, he, hfd, hu, hk]

theorem jsOr_jsOfOptStr_of_truthy (o : Option String) (b : JsValue) (h : optTruthy o = true) :
    jsOr (jsOfOptStr o) b = .str (o.getD "") := by
  cases o with
  | none => simp [optTruthy] at h
  | some s =>
    simp [optTruthy] at h
    simp [jsOr, jsOfOptStr, JsValue.truthy, h]

theorem jsOr_jsOfOptStr_of_falsy (o : Option String) (b : JsValue) (h : optTruthy o = false) :
    jsOr (jsOfOptStr o) b = b := by
  simp [jsOr, truthy_jsOfOptStr, h]

/-! ## Concrete fixtures (used by witnesses and counterexamples) -/

/-- A fully configured `redmineConfig`. -/
def fxCfg : RedmineConfig := ⟨some "http://redmine.local", some "secret-key", some "7"⟩

/-- `REDMINE_URL` set but `REDMINE_API_KEY` missing. -/
def fxCfgNoKey : RedmineConfig := ⟨some "http://redmine.local", none, none⟩

/-- A parsed Keycloak identity with a non-empty email. -/
def fxUserInfo : JsValue :=
  .obj [("name", .str "Ana"), ("email", .str "ana@example.com"),
        ("username", .str "ana"), ("sub", .str "kc-1")]

/-- A `JSON.parse` oracle that yields `fxUserInfo`. -/
def fxParse : String → Option JsValue := fun _ => some fxUserInfo

/-- The end-to-end scenario body (no `user_info`). -/
def fxBodyNoId : TicketBody :=
  ⟨none, some "Printer broken", some "No enciende", none, none, none, none, none, none⟩

/-- The same body with an identity blob attached. -/
def fxBody : TicketBody := { fxBodyNoId with user_info := some "blob" }

/-- The issue object a successful upstream create returns. -/
def fxIssue : JsValue := .obj [("id", .num 42), ("subject", .str "Printer broken")]

/-- A successful `POST /issues.json` outcome. -/
def fxCreateOk : AxiosResult JsValue := .ok (.obj [("issue", fxIssue)])

/-- A transport-level axios error (no upstream response). -/
def fxNetErr : AxiosError := ⟨"connect ECONNREFUSED", some "ECONNREFUSED", none⟩

/-- An upload transport on which every upload fails at transport level. -/
def fxUploadErr : Nat → AxiosResult JsValue := fun _ => .err fxNetErr

/-- An upstream 422 with a non-empty validation-error body. -/
def fxErr422 : AxiosError :=
  ⟨"Request failed with status code 422", none,
   some ⟨.obj [("errors", .arr [.str "Subject is invalid"])], 422⟩⟩

/-- An upstream 422 whose response body is the empty string (falsy). -/
def fxErr422Empty : AxiosError :=
  ⟨"Request failed with status code 422", none, some ⟨.str "", 422⟩⟩

/-- An upload transport on which the second upload fails and the others
succeed with a token. -/
def fxUt3 : Nat → AxiosResult JsValue := fun i =>
  if i = 1 then .err fxNetErr else .ok (.obj [("upload", .obj [("token", .str (toString i))])])

/-- Three attachments. -/
def fxFiles3 : List UploadFile :=
  [⟨"a.pdf", "application/pdf"⟩, ⟨"b.png", "image/png"⟩, ⟨"c.txt", "text/plain"⟩]

/-- A flat project list with two roots and three subprojects. -/
def fxProjects : List Project :=
  [⟨1, none, "A"⟩, ⟨2, some ⟨1⟩, "B"⟩, ⟨3, none, "C"⟩, ⟨4, some ⟨1⟩, "D"⟩, ⟨5, some ⟨3⟩, "E"⟩]

/-! ## Claims -/

/-- **C1** — counterexample.  The claim states that a request with
non-empty subject and description, no files and *no requester identity*
is answered 201 with the upstream ticket.  On the code it is answered
400 (`Información de usuario no disponible`) and the upstream create
call is never issued: the route aborts unless `user_info` parses to a
truthy object with a truthy `email`. -/
theorem c1_counterexample :
    (createTicketHandler fxCfg fxParse fxUploadErr fxCreateOk fxBodyNoId []).response.status = 400 ∧
    (createTicketHandler fxCfg fxParse fxUploadErr fxCreateOk fxBodyNoId []).response.status ≠ 201 ∧
    (createTicketHandler fxCfg fxParse fxUploadErr fxCreateOk fxBodyNoId []).calls = [] :=
  ⟨rfl, by decide, rfl⟩

/-- **C1** (amended).  For every ticket-creation request with non-empty
subject and description, no attached files, and a requester identity
that parses to a truthy object with a truthy email, when the upstream
create call succeeds with a well-formed issue the route issues exactly
one upstream create call and returns status 201 with `ticket` equal to
the upstream issue (hence `ticket.id` equal to the upstream id) and
`attachmentsUploaded` equal to 0. -/
theorem c1_amended (cfg : RedmineConfig) (jsonParse : String → Option JsValue)
    (ut : Nat → AxiosResult JsValue) (ct : AxiosResult JsValue)
    (body : TicketBody) (d issue tid : JsValue)
    (hu : optTruthy cfg.url = true) (hk : optTruthy cfg.apiKey = true)
    (hs : optTruthy body.subject = true) (hd : optTruthy body.description = true)
    (hut : (parseUserInfoField jsonParse body.user_info).truthy = true)
    (he : (((parseUserInfoField jsonParse body.user_info).get "email").getD .undefinedJs).truthy = true)
    (hct : ct = .ok d) (hiss : d.get "issue" = some issue) (hid : issue.get "id" = some tid) :
    (createTicketHandler cfg jsonParse ut ct body []).response.status = 201 ∧
    (createTicketHandler cfg jsonParse ut ct body []).response.body =
      .obj [("message", .str "Ticket creado exitosamente"), ("ticket", issue),
            ("attachmentsUploaded", .num 0)] ∧
    ∃ payload, (createTicketHandler cfg jsonParse ut ct body []).calls =
      [NetworkCall.create payload] := by
  obtain ⟨fd, hfd, hh⟩ := createTicketHandler_success cfg jsonParse ut ct body [] d issue tid
    hu hk hs hd hut he hct hiss hid
  refine ⟨by rw [hh], by rw [hh]; simp [runUploads, runUploadsAux], ⟨_, by rw [hh]; rfl⟩⟩

/-- **C1** — witness for the amended theorem at the end-to-end fixture. -/
theorem c1_witness :
    (createTicketHandler fxCfg fxParse fxUploadErr fxCreateOk fxBody []).response.status = 201 ∧
    (createTicketHandler fxCfg fxParse fxUploadErr fxCreateOk fxBody []).response.body =
      .obj [("message", .str "Ticket creado exitosamente"), ("ticket", fxIssue),
            ("attachmentsUploaded", .num 0)] ∧
    ∃ payload, (createTicketHandler fxCfg fxParse fxUploadErr fxCreateOk fxBody []).calls =
      [NetworkCall.create payload] :=
  c1_amended fxCfg fxParse fxUploadErr fxCreateOk fxBody (.obj [("issue", fxIssue)]) fxIssue
    (.num 42) (by decide) (by decide) (by decide) (by decide) (by decide) (by decide)
    rfl rfl rfl

/-- **C8**.  For every ticket-creation request in which subject or
description is missing or falsy, the route answers 400 immediately and
issues no upstream call at all (no upload, no create). -/
theorem c8_validation_short_circuits (cfg : RedmineConfig)
    (jsonParse : String → Option JsValue) (ut : Nat → AxiosResult JsValue)
    (ct : AxiosResult JsValue) (body : TicketBody) (files : List UploadFile)
    (h : optTruthy body.subject = false ∨ optTruthy body.description = false) :
    (createTicketHandler cfg jsonParse ut ct body files).response.status = 400 ∧
    (createTicketHandler cfg jsonParse ut ct body files).calls = [] := by
  unfold createTicketHandler
  rcases h with h | h <;> simp [h]

/-- **C8** — witness: a request with an empty subject and three
attachments is rejected with 400 and no network call. -/
theorem c8_witness :
    (createTicketHandler fxCfg fxParse fxUt3 fxCreateOk
      ⟨none, some "", some "No enciende", none, none, none, none, none, some "blob"⟩
      fxFiles3).response.status = 400 ∧
    (createTicketHandler fxCfg fxParse fxUt3 fxCreateOk
      ⟨none, some "", some "No enciende", none, none, none, none, none, some "blob"⟩
      fxFiles3).calls = [] :=
  c8_validation_short_circuits fxCfg fxParse fxUt3 fxCreateOk
    ⟨none, some "", some "No enciende", none, none, none, none, none, some "blob"⟩
    fxFiles3 (Or.inl (by decide))

/-- **C9**.  In the issue payload built by the create-ticket route,
`project_id` is the request's `project_id` when that is truthy and the
configured default project id otherwise; `tracker_id` is the request's
`tracker_id` when truthy and the number 1 otherwise; `priority_id` is
the request's `priority_id` when truthy and the number 2 otherwise. -/
theorem c9_payload_defaults (cfg : RedmineConfig) (body : TicketBody) (fd : String)
    (uploads : List UploadRef) :
    ((optTruthy body.project_id = true →
        (buildIssueData cfg body fd uploads).project_id = .str (body.project_id.getD "")) ∧
     (optTruthy body.project_id = false →
        (buildIssueData cfg body fd uploads).project_id = jsOfOptStr cfg.defaultProjectId)) ∧
    ((optTruthy body.tracker_id = true →
        (buildIssueData cfg body fd uploads).tracker_id = .str (body.tracker_id.getD "")) ∧
     (optTruthy body.tracker_id = false →
        (buildIssueData cfg body fd uploads).tracker_id = .num 1)) ∧
    ((optTruthy body.priority_id = true →
        (buildIssueData cfg body fd uploads).priority_id = .str (body.priority_id.getD "")) ∧
     (optTruthy body.priority_id = false →
        (buildIssueData cfg body fd uploads).priority_id = .num 2)) :=
  ⟨⟨fun h => jsOr_jsOfOptStr_of_truthy _ _ h,
    fun h => jsOr_jsOfOptStr_of_falsy _ _ h⟩,
   ⟨fun h => jsOr_jsOfOptStr_of_truthy _ _ h,
    fun h => jsOr_jsOfOptStr_of_falsy _ _ h⟩,
   ⟨fun h => jsOr_jsOfOptStr_of_truthy _ _ h,
    fun h => jsOr_jsOfOptStr_of_falsy _ _ h⟩⟩

/-- **C9** — witness: with `project_id = "5"`, no tracker and
`priority_id = "3"`, the payload carries `"5"`, the default tracker 1
and `"3"`. -/
theorem c9_witness :
    (buildIssueData fxCfg { fxBody with project_id := some "5", priority_id := some "3" }
      "desc" []).project_id = .str "5" ∧
    (buildIssueData fxCfg { fxBody with project_id := some "5", priority_id := some "3" }
      "desc" []).tracker_id = .num 1 ∧
    (buildIssueData fxCfg { fxBody with project_id := some "5", priority_id := some "3" }
      "desc" []).priority_id = .str "3" :=
  ⟨((c9_payload_defaults fxCfg
      { fxBody with project_id := some "5", priority_id := some "3" } "desc" []).1.1
      (by decide)),
   ((c9_payload_defaults fxCfg
      { fxBody with project_id := some "5", priority_id := some "3" } "desc" []).2.1.2
      (by decide)),
   ((c9_payload_defaults fxCfg
      { fxBody with project_id := some "5", priority_id := some "3" } "desc" []).2.2.1
      (by decide))⟩

/-- **C10**.  When the upstream projects call succeeds but the response
body has no `projects` field, the list-projects route still answers 200
with empty `main_projects`, an empty subproject map and `total_count`
0. -/
theorem c10_no_projects_field (cfg : RedmineConfig)
    (hu : optTruthy cfg.url = true) (hk : optTruthy cfg.apiKey = true) :
    projectsHandler cfg (.ok ⟨none⟩) = ⟨200, .shaped [] [] 0, true⟩ := by
  have hcall : callRedmineAPI cfg (.ok (⟨none⟩ : ProjectsData)) = (.success ⟨none⟩, true) := by
    unfold callRedmineAPI
    simp [hu, hk]
  unfold projectsHandler
  rw [hcall]
  rfl

/-- **C10** — witness at the concrete configuration. -/
theorem c10_witness : projectsHandler fxCfg (.ok ⟨none⟩) = ⟨200, .shaped [] [] 0, true⟩ :=
  c10_no_projects_field fxCfg (by decide) (by decide)

/-- The `uploads` field of the built payload is omitted exactly for an
empty upload list, and otherwise carries the list unchanged. -/
theorem buildIssueData_uploads_spec (cfg : RedmineConfig) (body : TicketBody) (fd : String)
    (uploads : List UploadRef) :
    ((buildIssueData cfg body fd uploads).uploads = none ↔ uploads = []) ∧
    (uploads ≠ [] → (buildIssueData cfg body fd uploads).uploads = some uploads) := by
  cases uploads <;> simp [buildIssueData]

/-- **C5**.  For every flat project list (with configured credentials),
the list-projects route answers 200 with `total_count` equal to the
input length, `main_projects` listing exactly the parentless projects in
input order — each annotated `has_subprojects` true iff its id is a key
of the subproject map — and a subproject map whose group at key `k` is
exactly the input projects whose parent has id `k`, in input order, each
annotated with `parent_id` copied from its parent; the map's keys are
pairwise distinct, so each subproject lands in exactly one group, and
membership of a key is equivalent to `hasKey`. -/
theorem c5_project_shaping (cfg : RedmineConfig) (ps : List Project)
    (hu : optTruthy cfg.url = true) (hk : optTruthy cfg.apiKey = true) :
    ∃ mains subs,
      projectsHandler cfg (.ok ⟨some ps⟩) = ⟨200, .shaped mains subs ps.length, true⟩ ∧
      mains = (ps.filter (fun p => p.parent.isNone)).map
        (fun p => ⟨p, subs.hasKey p.id⟩) ∧
      (∀ mp ∈ mains, mp.project.parent = none) ∧
      (∀ k, ((subs.find? k).getD []) = specSubprojectsOf ps k) ∧
      ((subs.map Prod.fst).Nodup) ∧
      (∀ k, subs.hasKey k = true ↔ k ∈ subs.map Prod.fst) := by
  have hcall : callRedmineAPI cfg (.ok (⟨some ps⟩ : ProjectsData)) =
      (.success ⟨some ps⟩, true) := by
    unfold callRedmineAPI
    simp [hu, hk]
  have hmains : (shapeProjects ps).1 =
      (ps.filter (fun p => p.parent.isNone)).map
        (fun p => ⟨p, (shapeProjects ps).2.hasKey p.id⟩) := by
    simp only [shapeProjects]
    rw [shape_foldl_fst ps ([], [])]
    simp [List.map_map, Function.comp]
  refine ⟨(shapeProjects ps).1, (shapeProjects ps).2, ?_, hmains, ?_, ?_, ?_, ?_⟩
  · unfold projectsHandler
    rw [hcall]
    rfl
  · intro mp hmp
    rw [hmains] at hmp
    obtain ⟨p, hp, rfl⟩ := List.mem_map.mp hmp
    have := (List.mem_filter.mp hp).2
    simpa [Option.isNone_iff_eq_none] using this
  · intro k
    show (((ps.foldl shapeStep ([], [])).2.find? k).getD []) = _
    rw [shape_foldl_find? ps ([], []) k]
    simp [SubMap.find?]
  · exact shape_foldl_nodup_keys ps ([], []) (by simp)
  · intro k
    exact SubMap.find?_isSome_iff_mem _ k

/-- **C5** — witness at a concrete five-project list. -/
theorem c5_witness :
    ∃ mains subs,
      projectsHandler fxCfg (.ok ⟨some fxProjects⟩) =
        ⟨200, .shaped mains subs fxProjects.length, true⟩ ∧
      mains = (fxProjects.filter (fun p => p.parent.isNone)).map
        (fun p => ⟨p, subs.hasKey p.id⟩) ∧
      (∀ mp ∈ mains, mp.project.parent = none) ∧
      (∀ k, ((subs.find? k).getD []) = specSubprojectsOf fxProjects k) ∧
      ((subs.map Prod.fst).Nodup) ∧
      (∀ k, subs.hasKey k = true ↔ k ∈ subs.map Prod.fst) :=
  c5_project_shaping fxCfg fxProjects (by decide) (by decide)

/-- **C4**.  For every ticket-creation request (configured credentials,
valid fields, known identity) whose N attachments upload with M
successes and N−M failures, when the upstream create succeeds the route
still answers 201 (no upload failure aborts the workflow), the response
reports `attachmentsUploaded` = M, and the create payload's `uploads`
field lists exactly the M successful uploads in original attachment
order — the field being absent precisely when M = 0. -/
theorem c4_attachment_mixed_uploads (cfg : RedmineConfig)
    (jsonParse : String → Option JsValue) (ut : Nat → AxiosResult JsValue)
    (ct : AxiosResult JsValue) (body : TicketBody) (files : List UploadFile)
    (d issue tid : JsValue)
    (hu : optTruthy cfg.url = true) (hk : optTruthy cfg.apiKey = true)
    (hs : optTruthy body.subject = true) (hd : optTruthy body.description = true)
    (hut : (parseUserInfoField jsonParse body.user_info).truthy = true)
    (he : (((parseUserInfoField jsonParse body.user_info).get "email").getD .undefinedJs).truthy = true)
    (hct : ct = .ok d) (hiss : d.get "issue" = some issue) (hid : issue.get "id" = some tid) :
    (createTicketHandler cfg jsonParse ut ct body files).response.status = 201 ∧
    (createTicketHandler cfg jsonParse ut ct body files).response.body =
      .obj [("message", .str "Ticket creado exitosamente"), ("ticket", issue),
            ("attachmentsUploaded", .num (specSuccessfulUploads cfg ut files).length)] ∧
    (specSuccessfulUploads cfg ut files).length ≤ files.length ∧
    ∃ fd,
      buildFullDescription (body.description.getD "") (parseUserInfoField jsonParse body.user_info)
        body.modulo body.numero_tramite body.identificador_operacion = some fd ∧
      (createTicketHandler cfg jsonParse ut ct body files).calls =
        (runUploads cfg ut files).2 ++
          [NetworkCall.create (buildIssueData cfg body fd (specSuccessfulUploads cfg ut files))] ∧
      ((buildIssueData cfg body fd (specSuccessfulUploads cfg ut files)).uploads = none ↔
        specSuccessfulUploads cfg ut files = []) ∧
      (specSuccessfulUploads cfg ut files ≠ [] →
        (buildIssueData cfg body fd (specSuccessfulUploads cfg ut files)).uploads =
          some (specSuccessfulUploads cfg ut files)) := by
  obtain ⟨fd, hfd, hh⟩ := createTicketHandler_success cfg jsonParse ut ct body files d issue tid
    hu hk hs hd hut he hct hiss hid
  have hlen : (specSuccessfulUploads cfg ut files).length ≤ files.length := by
    have h1 : (specSuccessfulUploads cfg ut files).length ≤ files.enum.length :=
      List.length_filterMap_le _ _
    simpa using h1
  refine ⟨by rw [hh], ?_, hlen, fd, hfd, ?_,
    (buildIssueData_uploads_spec cfg body fd _).1,
    (buildIssueData_uploads_spec cfg body fd _).2⟩
  · rw [hh]
    simp [runUploads_fst]
  · rw [hh]
    simp [runUploads_fst]

/-- **C4** — witness: three attachments of which the second fails; the
response reports 2 uploads and the payload lists the two successful
tokens in order. -/
theorem c4_witness :
    (createTicketHandler fxCfg fxParse fxUt3 fxCreateOk fxBody fxFiles3).response.status = 201 ∧
    (createTicketHandler fxCfg fxParse fxUt3 fxCreateOk fxBody fxFiles3).response.body =
      .obj [("message", .str "Ticket creado exitosamente"), ("ticket", fxIssue),
            ("attachmentsUploaded", .num (specSuccessfulUploads fxCfg fxUt3 fxFiles3).length)] ∧
    (specSuccessfulUploads fxCfg fxUt3 fxFiles3).length ≤ fxFiles3.length ∧
    ∃ fd,
      buildFullDescription (fxBody.description.getD "") (parseUserInfoField fxParse fxBody.user_info)
        fxBody.modulo fxBody.numero_tramite fxBody.identificador_operacion = some fd ∧
      (createTicketHandler fxCfg fxParse fxUt3 fxCreateOk fxBody fxFiles3).calls =
        (runUploads fxCfg fxUt3 fxFiles3).2 ++
          [NetworkCall.create (buildIssueData fxCfg fxBody fd
            (specSuccessfulUploads fxCfg fxUt3 fxFiles3))] ∧
      ((buildIssueData fxCfg fxBody fd (specSuccessfulUploads fxCfg fxUt3 fxFiles3)).uploads = none ↔
        specSuccessfulUploads fxCfg fxUt3 fxFiles3 = []) ∧
      (specSuccessfulUploads fxCfg fxUt3 fxFiles3 ≠ [] →
        (buildIssueData fxCfg fxBody fd (specSuccessfulUploads fxCfg fxUt3 fxFiles3)).uploads =
          some (specSuccessfulUploads fxCfg fxUt3 fxFiles3)) :=
  c4_attachment_mixed_uploads fxCfg fxParse fxUt3 fxCreateOk fxBody fxFiles3
    (.obj [("issue", fxIssue)]) fxIssue (.num 42)
    (by decide) (by decide) (by decide) (by decide) (by decide) (by decide) rfl rfl rfl

/-- **C3** — counterexample.  A create request with a known identity
whose upstream create call fails with a 422 does propagate the upstream
status and error payload, but the route emits NO failure audit record:
`audits` is empty (the `ERROR AUDIT` record lives only in the `catch`
block, which a `{success:false}` result does not reach). -/
theorem c3_counterexample :
    (createTicketHandler fxCfg fxParse fxUploadErr (.err fxErr422) fxBody []).response.status = 422 ∧
    (createTicketHandler fxCfg fxParse fxUploadErr (.err fxErr422) fxBody []).response.body =
      .obj [("error", .str "Error al crear ticket"),
            ("details", .obj [("errors", .arr [.str "Subject is invalid"])])] ∧
    (createTicketHandler fxCfg fxParse fxUploadErr (.err fxErr422) fxBody []).audits = [] :=
  ⟨rfl, rfl, rfl⟩

/-- **C3** (amended).  Whenever the upstream issue-create call returns a
failure result and the requester identity is known, the route propagates
the upstream-derived status (`result.status || 500`) and error payload
(`result.error`) to the caller, but it emits no audit record at all for
that request: the failure audit record is only produced by the `catch`
block for thrown exceptions, which a failure *result* never triggers. -/
theorem c3_amended (cfg : RedmineConfig) (jsonParse : String → Option JsValue)
    (ut : Nat → AxiosResult JsValue) (ct : AxiosResult JsValue)
    (body : TicketBody) (files : List UploadFile) (e : AxiosError)
    (hu : optTruthy cfg.url = true) (hk : optTruthy cfg.apiKey = true)
    (hs : optTruthy body.subject = true) (hd : optTruthy body.description = true)
    (hut : (parseUserInfoField jsonParse body.user_info).truthy = true)
    (he : (((parseUserInfoField jsonParse body.user_info).get "email").getD .undefinedJs).truthy = true)
    (hct : ct = .err e) :
    (createTicketHandler cfg jsonParse ut ct body files).response.status =
      jsOrNat (e.response.map (fun r => r.status)) 500 ∧
    (createTicketHandler cfg jsonParse ut ct body files).response.body =
      .obj [("error", .str "Error al crear ticket"),
            ("details", jsOr (match e.response with
                              | some r => r.data
                              | none => .undefinedJs) (.str e.message))] ∧
    (createTicketHandler cfg jsonParse ut ct body files).audits = [] := by
  obtain ⟨fd, hfd, hh⟩ := createTicketHandler_failure cfg jsonParse ut ct body files e
    hu hk hs hd hut he hct
  exact ⟨by rw [hh], by rw [hh], by rw [hh]⟩

/-- **C3** — witness for the amended theorem at the 422 fixture. -/
theorem c3_witness :
    (createTicketHandler fxCfg fxParse fxUploadErr (.err fxErr422) fxBody
      fxFiles3).response.status = jsOrNat (fxErr422.response.map (fun r => r.status)) 500 ∧
    (createTicketHandler fxCfg fxParse fxUploadErr (.err fxErr422) fxBody
      fxFiles3).response.body =
      .obj [("error", .str "Error al crear ticket"),
            ("details", jsOr (match fxErr422.response with
                              | some r => r.data
                              | none => .undefinedJs) (.str fxErr422.message))] ∧
    (createTicketHandler fxCfg fxParse fxUploadErr (.err fxErr422) fxBody fxFiles3).audits = [] :=
  c3_amended fxCfg fxParse fxUploadErr (.err fxErr422) fxBody fxFiles3 fxErr422
    (by decide) (by decide) (by decide) (by decide) (by decide) (by decide) rfl

/-- **C7** — counterexample.  An upstream create failure with known
status 422 but an empty (falsy) response body is answered with status
422 and `details` equal to the raw axios error message — not the
upstream error body (the empty string): `error.response?.data ||
error.message` discards a falsy upstream body. -/
theorem c7_counterexample :
    (createTicketHandler fxCfg fxParse fxUploadErr (.err fxErr422Empty) fxBody
      []).response.status = 422 ∧
    (createTicketHandler fxCfg fxParse fxUploadErr (.err fxErr422Empty) fxBody
      []).response.body =
      .obj [("error", .str "Error al crear ticket"),
            ("details", .str "Request failed with status code 422")] ∧
    JsValue.str "Request failed with status code 422" ≠ JsValue.str "" :=
  ⟨rfl, rfl, by simp⟩

/-- **C7** (amended).  For every upstream create failure with a known
(non-zero) HTTP status, the API response reuses that status, and its
`details` field carries the upstream error body verbatim provided that
body is truthy; when the body is falsy (e.g. empty), `details` carries
the raw error message instead.  When no upstream status is known, the
response status is 500 and `details` carries the raw error message. -/
theorem c7_upstream_status_propagation (cfg : RedmineConfig)
    (jsonParse : String → Option JsValue) (ut : Nat → AxiosResult JsValue)
    (ct : AxiosResult JsValue) (body : TicketBody) (files : List UploadFile) (e : AxiosError)
    (hu : optTruthy cfg.url = true) (hk : optTruthy cfg.apiKey = true)
    (hs : optTruthy body.subject = true) (hd : optTruthy body.description = true)
    (hut : (parseUserInfoField jsonParse body.user_info).truthy = true)
    (he : (((parseUserInfoField jsonParse body.user_info).get "email").getD .undefinedJs).truthy = true)
    (hct : ct = .err e) :
    (∀ r, e.response = some r → r.status ≠ 0 → r.data.truthy = true →
      (createTicketHandler cfg jsonParse ut ct body files).response.status = r.status ∧
      (createTicketHandler cfg jsonParse ut ct body files).response.body =
        .obj [("error", .str "Error al crear ticket"), ("details", r.data)]) ∧
    (∀ r, e.response = some r → r.status ≠ 0 → r.data.truthy = false →
      (createTicketHandler cfg jsonParse ut ct body files).response.status = r.status ∧
      (createTicketHandler cfg jsonParse ut ct body files).response.body =
        .obj [("error", .str "Error al crear ticket"), ("details", .str e.message)]) ∧
    (e.response = none →
      (createTicketHandler cfg jsonParse ut ct body files).response.status = 500 ∧
      (createTicketHandler cfg jsonParse ut ct body files).response.body =
        .obj [("error", .str "Error al crear ticket"), ("details", .str e.message)]) := by
  obtain ⟨fd, hfd, hh⟩ := createTicketHandler_failure cfg jsonParse ut ct body files e
    hu hk hs hd hut he hct
  refine ⟨?_, ?_, ?_⟩
  · intro r hr h0 htr
    rw [hh]
    simp [hr, jsOrNat, h0, jsOr, htr]
  · intro r hr h0 htr
    rw [hh]
    simp [hr, jsOrNat, h0, jsOr, htr]
  · intro hr
    rw [hh]
    simp [hr, jsOrNat, jsOr, JsValue.truthy]

/-- **C7** — witness: the truthy-body branch at the 422 fixture. -/
theorem c7_witness :
    (createTicketHandler fxCfg fxParse fxUploadErr (.err fxErr422) fxBody []).response.status = 422 ∧
    (createTicketHandler fxCfg fxParse fxUploadErr (.err fxErr422) fxBody []).response.body =
      .obj [("error", .str "Error al crear ticket"),
            ("details", .obj [("errors", .arr [.str "Subject is invalid"])])] :=
  (c7_upstream_status_propagation fxCfg fxParse fxUploadErr (.err fxErr422) fxBody [] fxErr422
    (by decide) (by decide) (by decide) (by decide) (by decide) (by decide) rfl).1
    ⟨.obj [("errors", .arr [.str "Subject is invalid"])], 422⟩ rfl (by decide) rfl

/-- **C2** — counterexample.  With `REDMINE_URL` configured but
`REDMINE_API_KEY` missing, a create request with one attachment still
issues a network request: `uploadFileToRedmine` performs no credential
check, so the upload of file 0 invokes axios even though the API key is
absent — contradicting the claim that no network request of any kind is
attempted. -/
theorem c2_counterexample :
    fxCfgNoKey.apiKey = none ∧
    (createTicketHandler fxCfgNoKey fxParse fxUploadErr fxCreateOk fxBody
      [⟨"a.pdf", "application/pdf"⟩]).calls = [NetworkCall.upload 0] ∧
    (createTicketHandler fxCfgNoKey fxParse fxUploadErr fxCreateOk fxBody
      [⟨"a.pdf", "application/pdf"⟩]).response.status = 500 :=
  ⟨rfl, rfl, rfl⟩

/-- **C2** (amended).  When the configured base URL or API key is
missing, every operation that reaches the upstream through
`callRedmineAPI` — list projects, list trackers, list priorities, get
ticket, and the issue-create call of the create-ticket route —
immediately returns the configuration-error failure (surfaced as HTTP
500 with the configuration message) and that call attempts no network
request.  The attachment-upload step is the exception: it performs no
credential check — with the base URL unset it fails on a thrown
`TypeError` before invoking axios, but with the base URL set it invokes
axios regardless of the API key. -/
theorem c2_missing_credentials (cfg : RedmineConfig)
    (hmiss : optTruthy cfg.url = false ∨ optTruthy cfg.apiKey = false) :
    (∀ t : AxiosResult ProjectsData, projectsHandler cfg t =
      ⟨500, .error "Error al obtener proyectos" (.str credsErrorMsg), false⟩) ∧
    (∀ t : AxiosResult JsValue, trackersHandler cfg t =
      ⟨500, .obj [("error", .str "Error al obtener trackers"),
        ("details", .str credsErrorMsg)], false⟩) ∧
    (∀ t : AxiosResult JsValue, prioritiesHandler cfg t =
      ⟨500, .obj [("error", .str "Error al obtener prioridades"),
        ("details", .str credsErrorMsg)], false⟩) ∧
    (∀ (id : String) (t : AxiosResult JsValue), getTicketHandler cfg id t =
      ⟨500, .obj [("error", .str "Error al obtener ticket"),
        ("details", .str credsErrorMsg)], false⟩) ∧
    (∀ (jsonParse : String → Option JsValue) (ut : Nat → AxiosResult JsValue)
        (ct : AxiosResult JsValue) (body : TicketBody) (files : List UploadFile),
      optTruthy body.subject = true → optTruthy body.description = true →
      (parseUserInfoField jsonParse body.user_info).truthy = true →
      (((parseUserInfoField jsonParse body.user_info).get "email").getD .undefinedJs).truthy = true →
      ((∀ p, NetworkCall.create p ∉ (createTicketHandler cfg jsonParse ut ct body files).calls) ∧
       (createTicketHandler cfg jsonParse ut ct body files).response.status = 500 ∧
       (createTicketHandler cfg jsonParse ut ct body files).response.body =
         .obj [("error", .str "Error al crear ticket"), ("details", .str credsErrorMsg)])) ∧
    (∀ (file : UploadFile) (t : AxiosResult JsValue), cfg.url = none →
      uploadFileToRedmine cfg t file = (.failure (.str urlTypeErrorMsg), false)) ∧
    (∀ (cfg2 : RedmineConfig) (u : String) (file : UploadFile) (t : AxiosResult JsValue),
      cfg2.url = some u → (uploadFileToRedmine cfg2 t file).2 = true) := by
  have hcall : ∀ (α : Type) (t : AxiosResult α),
      callRedmineAPI cfg t = (.failure (.str credsErrorMsg) none none, false) := by
    intro α t
    unfold callRedmineAPI
    rcases hmiss with h | h <;> simp [h]
  refine ⟨?_, ?_, ?_, ?_, ?_, ?_, ?_⟩
  · intro t
    unfold projectsHandler
    rw [hcall]
    rfl
  · intro t
    unfold trackersHandler
    rw [hcall]
    rfl
  · intro t
    unfold prioritiesHandler
    rw [hcall]
    rfl
  · intro id t
    unfold getTicketHandler
    rw [hcall]
    rfl
  · intro jsonParse ut ct body files hs hd hut he
    obtain ⟨fd, hfd⟩ := buildFullDescription_isSome (body.description.getD "")
      (parseUserInfoField jsonParse body.user_info) body.modulo body.numero_tramite
      body.identificador_operacion hut
    have hrun : createTicketHandler cfg jsonParse ut ct body files =
        { response := ⟨500, .obj [("error", .str "Error al crear ticket"),
            ("details", .str credsErrorMsg)]⟩,
          calls := (runUploads cfg ut files).2,
          audits := [] } := by
      unfold createTicketHandler
      rw [hcall]
      simp [hs, hd, hut, he, hfd, jsOrNat]
    refine ⟨?_, by rw [hrun], by rw [hrun]⟩
    intro p hp
    rw [hrun] at hp
    obtain ⟨j, hj⟩ := runUploadsAux_calls_are_uploads cfg ut files 0 _ hp
    exact NetworkCall.noConfusion hj
  · intro file t hurl
    unfold uploadFileToRedmine
    rw [hurl]
  · intro cfg2 u file t hurl
    unfold uploadFileToRedmine
    rw [hurl]
    cases t with
    | ok d =>
      cases h1 : d.get "upload" with
      | none => simp [h1]
      | some up =>
        cases h2 : up.get "token" with
        | none => simp [h1, h2]
        | some tok => simp [h1, h2]
    | err e => rfl

/-- **C2** — witness: the trackers route and a no-file create request at
a fully missing configuration answer 500 with the configuration message
and attempt no network call. -/
theorem c2_witness :
    trackersHandler ⟨none, none, none⟩ (.ok (.obj [])) =
      ⟨500, .obj [("error", .str "Error al obtener trackers"),
        ("details", .str credsErrorMsg)], false⟩ ∧
    (createTicketHandler ⟨none, none, none⟩ fxParse fxUploadErr fxCreateOk fxBody
      []).response.status = 500 ∧
    (createTicketHandler ⟨none, none, none⟩ fxParse fxUploadErr fxCreateOk fxBody
      []).response.body =
      .obj [("error", .str "Error al crear ticket"), ("details", .str credsErrorMsg)] :=
  ⟨(c2_missing_credentials ⟨none, none, none⟩ (Or.inl (by decide))).2.1 (.ok (.obj [])),
   ((c2_missing_credentials ⟨none, none, none⟩ (Or.inl (by decide))).2.2.2.2.1
      fxParse fxUploadErr fxCreateOk fxBody [] (by decide) (by decide) (by decide)
      (by decide)).2.1,
   ((c2_missing_credentials ⟨none, none, none⟩ (Or.inl (by decide))).2.2.2.2.1
      fxParse fxUploadErr fxCreateOk fxBody [] (by decide) (by decide) (by decide)
      (by decide)).2.2⟩

/-- Spec-side: one line of the additional-information section — present
(ending in a newline) exactly when the field is truthy. -/
def specOptLine (label : String) (v : Option String) : String :=
  if optTruthy v then label ++ v.getD "" ++ "\n" else ""

/-- Spec-side: the additional-information section — empty when no custom
field is present, otherwise the header followed by the lines of the
present fields, in the fixed order modulo, numero_tramite,
identificador_operacion. -/
def specAdditionalInfoSection (m n i : Option String) : String :=
  if optTruthy m || optTruthy n || optTruthy i then
    "\n**Información Adicional:**\n" ++ specOptLine "- **Módulo:** " m
      ++ specOptLine "- **Número de trámite:** " n
      ++ specOptLine "- **Identificador de operación:** " i
  else ""

/-- Spec-side: the description prefix before the additional-information
section (request description plus the requester-information section). -/
def specRequesterSection (description : String) (name email username : JsValue) : String :=
  description ++ "\n\n---\n**Información del Solicitante:**\n"
    ++ "- **Nombre:** " ++ name.template ++ "\n"
    ++ "- **Email:** " ++ email.template ++ "\n"
    ++ (if username.truthy then "- **Usuario Keycloak:** " ++ username.template ++ "\n" else "")

/-- **C6**.  The composed issue description is the requester part
followed by the additional-information section; that section is empty
iff none of modulo, numero_tramite, identificador_operacion is present,
and otherwise (by definition of `specAdditionalInfoSection`) consists of
the header followed by one line per present field, absent fields
omitted, in the fixed order modulo → numero_tramite →
identificador_operacion. -/
theorem c6_additional_info_section (d : String) (ui : JsValue) (m n i : Option String)
    (h : ui.truthy = true) :
    ∃ name email username,
      ui.get "name" = some name ∧ ui.get "email" = some email ∧
      ui.get "username" = some username ∧
      buildFullDescription d ui m n i =
        some (specRequesterSection d name email username ++ specAdditionalInfoSection m n i) ∧
      (specAdditionalInfoSection m n i = "" ↔
        (optTruthy m || optTruthy n || optTruthy i) = false) := by
  obtain ⟨nm, hnm⟩ := ui.get_isSome_of_truthy "name" h
  obtain ⟨em, hem⟩ := ui.get_isSome_of_truthy "email" h
  obtain ⟨un, hun⟩ := ui.get_isSome_of_truthy "username" h
  refine ⟨nm, em, un, hnm, hem, hun, ?_, ?_⟩
  · unfold buildFullDescription
    rw [hnm, hem, hun]
    unfold specRequesterSection specAdditionalInfoSection specOptLine
    rcases hm : optTruthy m <;> rcases hn : optTruthy n <;> rcases hi : optTruthy i <;>
      rcases hu2 : un.truthy <;>
      simp [hm, hn, hi, hu2] <;>
      simp only [String.append_assoc]
  · unfold specAdditionalInfoSection
    rcases ho : (optTruthy m || optTruthy n || optTruthy i)
    · simp [ho]
    · rw [if_pos rfl]
      simp only [ho, Bool.true_eq_false, iff_false]
      intro hempty
      have hlen := congrArg String.length hempty
      simp only [String.length_append] at hlen
      have hpos : 0 < ("\n**Información Adicional:**\n" : String).length := by decide
      have hz : ("" : String).length = 0 := rfl
      omega

/-- **C6** — witness: with modulo and identificador present and
numero_tramite absent, the description ends with the section holding
exactly those two lines in order. -/
theorem c6_witness :
    ∃ name email username,
      fxUserInfo.get "name" = some name ∧ fxUserInfo.get "email" = some email ∧
      fxUserInfo.get "username" = some username ∧
      buildFullDescription "No enciende" fxUserInfo (some "Ventas") none (some "OP-1") =
        some (specRequesterSection "No enciende" name email username ++
          specAdditionalInfoSection (some "Ventas") none (some "OP-1")) ∧
      (specAdditionalInfoSection (some "Ventas") none (some "OP-1") = "" ↔
        (optTruthy (some "Ventas") || optTruthy (none : Option String) ||
          optTruthy (some "OP-1")) = false) :=
  c6_additional_info_section "No enciende" fxUserInfo (some "Ventas") none (some "OP-1")
    (by decide)

end RedmineProxy
